import Mathlib

/-!
Verification development for the `hume_broker` message-broker facade
(`src/hume_broker/broker.py`).

The module is a process-local facade over an external transport client
(`rabbitmq_client.RMQClient`).  Its state is two module-level globals:
`_internal_subscriptions` (a dict from topic to a list of callbacks, the Local
Registry) and `_rmq_client` (the Transport Client handle).  Both are assigned
only by `start`; referencing either one before the first `start` raises a
Python `NameError`.

Modelling conventions:
* Python `bytes` is `List Nat`; local messages are `String` (the code passes
  text payloads locally).
* A local subscriber callback is an opaque capability; we identify it by a
  natural number and record its invocation as an event `(callback, message)`
  instead of executing it, so the order and arguments of the synchronous
  fan-out are observable.
* A dict value in `_internal_subscriptions` can be a genuine list of callbacks
  or Python `None` (which the code itself stores via the return value of
  `list.append`), so registry values are `Option (List Cb)`.
* Exceptions are `Except` errors.  `BrokerError.nameError` is the Python
  `NameError` raised when an unassigned module global is referenced;
  `BrokerError.exception msg` is `raise Exception(msg)`.
* Every facade operation is state-passing: it returns its result (or error)
  together with the module state after the call, mirroring that a raised
  exception does not roll back the globals.
* The external `RMQClient` is not part of this repository.  We record the
  method calls the facade makes on it as a trace, and model the behaviour the
  spec's transport capability contract (§6) promises for `rpc_call` and
  `enable_rpc_server`; those definitions carry a `Modelled from the spec:`
  doc comment.
-/

namespace HumeBroker

/-- Python `bytes`, as a list of byte values. -/
abbrev Bytes := List Nat

/-- A local message payload (`str` in `publish_local`). -/
abbrev Msg := String

/-- An opaque local subscriber callback, identified by a number. -/
abbrev Cb := Nat

/-- An invocation event: callback `c` was called with message `m`. -/
abbrev Event := Cb × Msg

/-- An RPC server handler: receives request bytes, returns reply bytes. -/
abbrev Handler := Bytes → Bytes

/-- A value stored in the `_internal_subscriptions` dict for a topic: either a
list of callbacks, or Python `None` (stored by `subscribe_local`, which assigns
the return value of `list.append`). -/
abbrev RegValue := Option (List Cb)

/-- The `_internal_subscriptions` dict: an association list with at most one
binding per key, insertion-ordered. -/
abbrev Registry := List (String × RegValue)

/-- Dict key lookup: `none` when the key is absent, `some v` when the key is
bound to `v` (and `v` may itself be `none`, i.e. Python `None`). -/
def dictLookup (d : Registry) (k : String) : Option RegValue :=
  match d with
  | [] => none
  | (k₀, v) :: rest => if k₀ = k then some v else dictLookup rest k

/-- Python `dict.get(k)`: returns `None` when the key is absent, otherwise the
stored value — which may also be `None`.  The two cases are indistinguishable
to the caller, exactly as in Python. -/
def dictGet (d : Registry) (k : String) : RegValue :=
  match dictLookup d k with
  | none => none
  | some v => v

/-- Setting a dict entry (`d[k] = v`, and also `d.update({k: v})`): replaces
the existing binding for `k` or appends a new one. -/
def dictSet (d : Registry) (k : String) (v : RegValue) : Registry :=
  match d with
  | [] => [(k, v)]
  | (k₀, v₀) :: rest => if k₀ = k then (k, v) :: rest else (k₀, v₀) :: dictSet rest k v

/-- Python `list.append(x)` mutates the list in place and returns `None`.
`subscribe_local` assigns this return value back into the dict, so the value
that actually lands in the registry is `None`; the mutated list itself becomes
unreachable once the dict entry is overwritten. -/
def listAppendResult (_subs : List Cb) (_cb : Cb) : RegValue := none

/-- A method call made on the external `RMQClient` instance. -/
inductive ClientCall where
  | start
  | enableRpcClient
  | stop
  | subscribe (topic : String)
  | enableRpcServer (queue : String)
  deriving DecidableEq

/-- The external transport client handle: the trace of method calls the facade
has made on it, plus the RPC servers registered through it (the part of its
behaviour the RPC claims need). -/
structure RMQClient where
  trace : List ClientCall
  rpcServers : List (String × Handler)

/-- `RMQClient(log_queue=..., connection_parameters=...)`: constructing a fresh
client instance.  The configuration does not influence any behaviour the
claims observe. -/
structure Config where
  log_queue : Option Nat
  connection_parameters : Option Nat

/-- A freshly constructed client: no methods called, no servers registered. -/
def RMQClient.new (_cfg : Config) : RMQClient :=
  { trace := [], rpcServers := [] }

/-- `_rmq_client.start()`. -/
def RMQClient.startCall (c : RMQClient) : RMQClient :=
  { c with trace := c.trace ++ [.start] }

/-- `_rmq_client.enable_rpc_client()`. -/
def RMQClient.enableRpcClient (c : RMQClient) : RMQClient :=
  { c with trace := c.trace ++ [.enableRpcClient] }

/-- `_rmq_client.stop()`. -/
def RMQClient.stopCall (c : RMQClient) : RMQClient :=
  { c with trace := c.trace ++ [.stop] }

/-- `_rmq_client.subscribe(topic, callback)`. -/
def RMQClient.subscribeCall (c : RMQClient) (topic : String) : RMQClient :=
  { c with trace := c.trace ++ [.subscribe topic] }

/-- Modelled from the spec: the transport's `enableRpcServer(handle, queueName,
handler)` capability (§6), registering the handler for the named request queue
(§4.4: exactly one active callback per queue name).  The Python method body
lives in the external `rabbitmq_client` package, not in this repository. -/
def RMQClient.enableRpcServerCall (c : RMQClient) (q : String) (h : Handler) : RMQClient :=
  { c with
      trace := c.trace ++ [.enableRpcServer q]
      rpcServers := c.rpcServers ++ [(q, h)] }

/-- First registered handler for a queue name, if any. -/
def serversLookup (l : List (String × Handler)) (q : String) : Option Handler :=
  match l with
  | [] => none
  | (q₀, h) :: rest => if q₀ = q then some h else serversLookup rest q

/-- The three typed RPC failure modes of the transport contract (§6):
`rpcCall(...) -> bytes | error{no-receiver, timeout, transport-failure}`. -/
inductive RpcError where
  | noReceiver
  | timeout
  | transportFailure
  deriving DecidableEq

/-- Modelled from the spec: the transport's `rpcCall(handle, queueName, bytes,
timeout) -> bytes | error{no-receiver, timeout, transport-failure}` capability
(§6).  With a registered server the handler's reply bytes are returned; with
no registered server the call returns the no-receiver error within the
configured timeout bound instead of blocking.  Timeout and transport-failure
outcomes arise only from environment conditions outside this model.  The
Python method body lives in the external `rabbitmq_client` package, not in
this repository. -/
def RMQClient.rpcCall (c : RMQClient) (q : String) (msg : Bytes) : Except RpcError Bytes :=
  match serversLookup c.rpcServers q with
  | some h => .ok (h msg)
  | none => .error .noReceiver

/-- An error surfaced to the caller of a facade operation. -/
inductive BrokerError where
  /-- Python `NameError`: a module global (`_internal_subscriptions` or
  `_rmq_client`) referenced before `start` ever assigned it. -/
  | nameError
  /-- `raise Exception(msg)` executed by the facade itself. -/
  | exception (msg : String)
  /-- A typed RPC failure returned by the transport client. -/
  | rpc (e : RpcError)
  deriving DecidableEq

/-- The module-level state of `hume_broker.broker`: whether the two globals
have been assigned (they are assigned together, only by `start`), the
`_internal_subscriptions` dict, and the `_rmq_client` handle. -/
structure BrokerState where
  started : Bool
  registry : Registry
  client : RMQClient

/-- The module as imported, before any call to `start`: both globals are
declared (as bare annotations) but unassigned. -/
def initialState : BrokerState :=
  { started := false, registry := [], client := { trace := [], rpcServers := [] } }

/-- `start(log_queue, connection_parameters)` (broker.py): rebinds
`_internal_subscriptions` to a fresh empty dict, constructs a new `RMQClient`,
calls its `start()` and then its `enable_rpc_client()`.  The previous state is
discarded without any check or any `stop` of the previous client. -/
def start (_s : BrokerState) (cfg : Config) : BrokerState :=
  { started := true
    registry := []
    client := ((RMQClient.new cfg).startCall).enableRpcClient }

/-- `stop()` (broker.py): calls `_rmq_client.stop()`.  There is no check that
the broker is running; before the first `start` the bare reference to
`_rmq_client` raises `NameError`. -/
def stop (s : BrokerState) : Except BrokerError Unit × BrokerState :=
  if s.started then (.ok (), { s with client := s.client.stopCall })
  else (.error .nameError, s)

/-- `subscribe_global(topic, callback)` (broker.py): delegates to
`_rmq_client.subscribe(topic, callback)` with no lifecycle check of its own;
the outcome of the delegated call inside the external client is out of scope. -/
def subscribe_global (s : BrokerState) (topic : String) (_cb : Bytes → Unit) :
    Except BrokerError Unit × BrokerState :=
  if s.started then (.ok (), { s with client := s.client.subscribeCall topic })
  else (.error .nameError, s)

/-- `subscribe_local(topic, callback)` (broker.py): reads
`_internal_subscriptions.get(topic)`.  If a list is stored, it runs
`_internal_subscriptions.update({topic: subscriptions.append(callback)})` —
storing the return value of `list.append`, which is Python `None`.  Otherwise
(key absent, or the stored value is already `None`) it stores a fresh
one-element list `[callback]`. -/
def subscribe_local (s : BrokerState) (topic : String) (cb : Cb) :
    Except BrokerError Unit × BrokerState :=
  if s.started then
    match dictGet s.registry topic with
    | some subs =>
        (.ok (), { s with registry := dictSet s.registry topic (listAppendResult subs cb) })
    | none =>
        (.ok (), { s with registry := dictSet s.registry topic (some [cb]) })
  else (.error .nameError, s)

/-- `publish_local(topic, message)` (broker.py): reads
`_internal_subscriptions.get(topic)`; if that is `None` (key absent — or the
stored value itself is `None`) it raises
`Exception("That subscription does not exist")`; otherwise it invokes each
stored callback on `message`, in list order.  The dict is never written. -/
def publish_local (s : BrokerState) (topic : String) (message : Msg) :
    Except BrokerError (List Event) × BrokerState :=
  if s.started then
    match dictGet s.registry topic with
    | none => (.error (.exception "That subscription does not exist"), s)
    | some subs => (.ok (subs.map fun c => (c, message)), s)
  else (.error .nameError, s)

/-- `enable_rpc_server(queue_name, callback)` (broker.py): delegates to
`_rmq_client.enable_rpc_server(queue_name, callback)`. -/
def enable_rpc_server (s : BrokerState) (queue_name : String) (callback : Handler) :
    Except BrokerError Unit × BrokerState :=
  if s.started then
    (.ok (), { s with client := s.client.enableRpcServerCall queue_name callback })
  else (.error .nameError, s)

/-- `rpc_call(receiver, message)` (broker.py): returns
`_rmq_client.rpc_call(receiver, message)` unchanged — the facade adds nothing
to the transport's reply or to its typed failure. -/
def rpc_call (s : BrokerState) (receiver : String) (message : Bytes) :
    Except BrokerError Bytes × BrokerState :=
  if s.started then
    match s.client.rpcCall receiver message with
    | .ok answer => (.ok answer, s)
    | .error e => (.error (.rpc e), s)
  else (.error .nameError, s)

/-! ## Theorems for the claims -/

/-- A convenient concrete configuration for closed statements. -/
def cfg0 : Config := ⟨none, none⟩

/-- Claim C1 (code bug): the claim says that after `subscribe_local(T, c1)` and
`subscribe_local(T, c2)` the next `publish_local(T, m)` invokes both callbacks
and the registry never overwrites prior subscribers.  The code violates this:
the second subscribe stores the return value of `list.append` — Python `None` —
as the registry entry for `T`, so the entry holds `None` (first conjunct) and
the next publish raises the local-addressing exception, invoking neither
callback (second conjunct).  A third subscribe would then install a fresh
one-element list, losing both earlier callbacks. -/
theorem c1_second_subscribe_destroys_entry :
    dictLookup
        (subscribe_local (subscribe_local (start initialState cfg0) "t" 1).2 "t" 2).2.registry
        "t"
      = some none
    ∧ (publish_local
          (subscribe_local (subscribe_local (start initialState cfg0) "t" 1).2 "t" 2).2
          "t" "m").1
      = .error (.exception "That subscription does not exist") := by
  exact ⟨rfl, rfl⟩

/-- Claim C2: on a running broker, for every topic absent from the registry and
every message, `publish_local` fails with the local-addressing exception; the
error result carries no invocation events, so no callback is invoked, and the
state is returned unchanged. -/
theorem c2_publish_absent_topic_fails (s : BrokerState) (t : String) (m : Msg)
    (hs : s.started = true) (habs : dictLookup s.registry t = none) :
    (publish_local s t m).1 = .error (.exception "That subscription does not exist") := by
  have hget : dictGet s.registry t = none := by
    simp [dictGet, habs]
  simp [publish_local, hs, hget]

/-- Witness for C2 at a concrete input: a freshly started broker and topic
`"t"`, which is absent. -/
theorem c2_witness :
    ((start initialState cfg0).started = true
      ∧ dictLookup (start initialState cfg0).registry "t" = none)
    ∧ (publish_local (start initialState cfg0) "t" "m").1
        = .error (.exception "That subscription does not exist") :=
  ⟨⟨rfl, rfl⟩, c2_publish_absent_topic_fails (start initialState cfg0) "t" "m" rfl rfl⟩

/-- Claim C3: on a running broker, when the registry entry for `t` holds the
callback list `cbs`, `publish_local` succeeds and the invocation events are
exactly `cbs` in order, each paired with the same message `m` — the synchronous
in-order fan-out. -/
theorem c3_publish_in_order (s : BrokerState) (t : String) (m : Msg) (cbs : List Cb)
    (hs : s.started = true) (hsubs : dictGet s.registry t = some cbs) :
    (publish_local s t m).1 = .ok (cbs.map fun c => (c, m)) := by
  simp [publish_local, hs, hsubs]

/-- Witness for C3: after one subscribe of callback `5` to `"t"`, publishing
`"m"` yields exactly the event `(5, "m")`. -/
theorem c3_witness :
    ((subscribe_local (start initialState cfg0) "t" 5).2.started = true
      ∧ dictGet (subscribe_local (start initialState cfg0) "t" 5).2.registry "t" = some [5])
    ∧ (publish_local (subscribe_local (start initialState cfg0) "t" 5).2 "t" "m").1
        = .ok [(5, "m")] :=
  ⟨⟨rfl, rfl⟩,
    c3_publish_in_order (subscribe_local (start initialState cfg0) "t" 5).2 "t" "m" [5] rfl rfl⟩

/-- Counterexample to claim C4 as stated: after `start`, `subscribe_local`,
`stop`, the call `publish_local("t", "m")` does not fail with a lifecycle
error — it succeeds and invokes the registered callback. -/
theorem c4_counterexample :
    (publish_local (stop (subscribe_local (start initialState cfg0) "t" 7).2).2 "t" "m").1
      = .ok [(7, "m")] := by
  exact rfl

/-- Claim C4, amended: the facade has no lifecycle guard.  After `stop`,
`publish_local` behaves exactly as before the `stop` (same result on the same
topic and message), and the facade still delegates `subscribe_global` and
`rpc_call` to the stopped client rather than failing (`rpc_call` returns the
same result as before the `stop`); before the first `start`, every facade
operation other than `start` — `publish_local`, `subscribe_local`,
`subscribe_global`, `enable_rpc_server`, `rpc_call` and `stop` — fails with
the `NameError` of an unassigned module global, not a dedicated lifecycle
error. -/
theorem c4_no_lifecycle_guard (s : BrokerState) (t : String) (m : Msg) (cb : Cb)
    (q : String) (b : Bytes) (h : Handler) (hs : s.started = true) :
    (publish_local (stop s).2 t m).1 = (publish_local s t m).1
    ∧ (subscribe_global (stop s).2 t (fun _ => ())).1 = .ok ()
    ∧ (rpc_call (stop s).2 q b).1 = (rpc_call s q b).1
    ∧ (publish_local initialState t m).1 = .error .nameError
    ∧ (subscribe_local initialState t cb).1 = .error .nameError
    ∧ (subscribe_global initialState t (fun _ => ())).1 = .error .nameError
    ∧ (enable_rpc_server initialState q h).1 = .error .nameError
    ∧ (rpc_call initialState q b).1 = .error .nameError
    ∧ (stop initialState).1 = .error .nameError := by
  refine ⟨?_, ?_, ?_, rfl, rfl, rfl, rfl, rfl, rfl⟩
  · cases hg : dictGet s.registry t <;> simp [stop, hs, publish_local, hg]
  · simp [stop, hs, subscribe_global]
  · cases hr : serversLookup s.client.rpcServers q <;>
      simp [stop, hs, rpc_call, RMQClient.rpcCall, RMQClient.stopCall, hr]

/-- Witness for the amended C4 at a concrete running state. -/
theorem c4_witness :
    ((subscribe_local (start initialState cfg0) "t" 7).2.started = true)
    ∧ (publish_local (stop (subscribe_local (start initialState cfg0) "t" 7).2).2 "t" "m").1
        = (publish_local (subscribe_local (start initialState cfg0) "t" 7).2 "t" "m").1 :=
  ⟨rfl,
    (c4_no_lifecycle_guard (subscribe_local (start initialState cfg0) "t" 7).2
      "t" "m" 0 "q" [] (fun b => b) rfl).1⟩

/-- Claim C5: on a running broker, an `rpc_call` to a queue with no registered
server returns the typed no-receiver error (the transport contract's bounded
no-receiver outcome, passed through by the facade), and the facade's embedding
of transport errors is injective, so the no-receiver, timeout and
transport-failure modes stay distinguishable to the caller. -/
theorem c5_rpc_no_receiver (s : BrokerState) (q : String) (m : Bytes)
    (hs : s.started = true) (hno : serversLookup s.client.rpcServers q = none) :
    (rpc_call s q m).1 = .error (.rpc .noReceiver)
    ∧ ∀ e₁ e₂ : RpcError, BrokerError.rpc e₁ = BrokerError.rpc e₂ → e₁ = e₂ := by
  constructor
  · simp [rpc_call, hs, RMQClient.rpcCall, hno]
  · intro e₁ e₂ h
    cases h
    rfl

/-- Witness for C5: a freshly started broker has no server on `"nobody"`, and
the call fails with the no-receiver error. -/
theorem c5_witness :
    ((start initialState cfg0).started = true
      ∧ serversLookup (start initialState cfg0).client.rpcServers "nobody" = none)
    ∧ (rpc_call (start initialState cfg0) "nobody" [0]).1 = .error (.rpc .noReceiver) :=
  ⟨⟨rfl, rfl⟩, (c5_rpc_no_receiver (start initialState cfg0) "nobody" [0] rfl rfl).1⟩

/-- Counterexample to claim C6 as stated: calling `stop` on a non-running
broker does not fail with an "inactive broker" error.  Before the first
`start`, `stop` fails with the `NameError` of the unassigned `_rmq_client`
global (the facade defines no inactive-broker error at all); and after
`start` followed by `stop`, a second `stop` performs no facade-level check —
it just invokes the client's `stop()` again and returns successfully at the
facade level. -/
theorem c6_counterexample :
    (stop initialState).1 = .error .nameError
    ∧ (stop (stop (start initialState cfg0)).2).1 = .ok () := by
  exact ⟨rfl, rfl⟩

/-- Claim C6, amended: `stop` before any `start` fails with the unassigned
global `NameError` and leaves the state unchanged; `stop` on a started state
(including one already stopped) performs no check and simply appends another
`stop()` call on the client. -/
theorem c6_stop_has_no_guard (s s₁ : BrokerState)
    (h : s.started = false) (h₁ : s₁.started = true) :
    ((stop s).1 = .error .nameError ∧ (stop s).2 = s)
    ∧ ((stop s₁).1 = .ok () ∧ (stop s₁).2.client.trace = s₁.client.trace ++ [.stop]) := by
  refine ⟨⟨?_, ?_⟩, ⟨?_, ?_⟩⟩
  · simp [stop, h]
  · simp [stop, h]
  · simp [stop, h₁]
  · simp [stop, h₁, RMQClient.stopCall]

/-- Witness for the amended C6: the fresh module state is not started; the
state reached by `start` then `stop` is still started, and a second `stop`
appends another client `stop()` call. -/
theorem c6_witness :
    (initialState.started = false
      ∧ (stop (start initialState cfg0)).2.started = true)
    ∧ (((stop initialState).1 = .error .nameError ∧ (stop initialState).2 = initialState)
      ∧ ((stop (stop (start initialState cfg0)).2).1 = .ok ()
        ∧ (stop (stop (start initialState cfg0)).2).2.client.trace
            = (stop (start initialState cfg0)).2.client.trace ++ [.stop])) :=
  ⟨⟨rfl, rfl⟩, c6_stop_has_no_guard initialState (stop (start initialState cfg0)).2 rfl rfl⟩

/-- Claim C7: on a running broker, when the transport has a server registered
on queue `q` with handler `h`, `rpc_call q req` returns exactly the handler's
reply bytes `h req` — the facade passes the transport's reply through
unmodified. -/
theorem c7_rpc_reply_passthrough (s : BrokerState) (q : String) (req : Bytes) (h : Handler)
    (hs : s.started = true) (hsrv : serversLookup s.client.rpcServers q = some h) :
    (rpc_call s q req).1 = .ok (h req) := by
  simp [rpc_call, hs, RMQClient.rpcCall, hsrv]

/-- Witness for C7, the spec's echo scenario: register the identity handler on
`"echo"`, call it with `[1, 2, 3]`, get `[1, 2, 3]` back. -/
theorem c7_witness :
    ((enable_rpc_server (start initialState cfg0) "echo" (fun b => b)).2.started = true
      ∧ serversLookup
          (enable_rpc_server (start initialState cfg0) "echo" (fun b => b)).2.client.rpcServers
          "echo"
        = some (fun b => b))
    ∧ (rpc_call (enable_rpc_server (start initialState cfg0) "echo" (fun b => b)).2
        "echo" [1, 2, 3]).1 = .ok [1, 2, 3] :=
  ⟨⟨rfl, rfl⟩,
    c7_rpc_reply_passthrough (enable_rpc_server (start initialState cfg0) "echo" (fun b => b)).2
      "echo" [1, 2, 3] (fun b => b) rfl rfl⟩

/-- Claim C8: for every prior state and every configuration, `start` leaves the
broker running with a client on which exactly `start()` and then
`enable_rpc_client()` were invoked, in that order, unconditionally — no RPC
server is registered by `start` itself. -/
theorem c8_start_enables_rpc_client (s : BrokerState) (cfg : Config) :
    (start s cfg).client.trace = [.start, .enableRpcClient]
    ∧ (start s cfg).client.rpcServers = []
    ∧ (start s cfg).started = true :=
  ⟨rfl, rfl, rfl⟩

/-- Claim C9: calling `start` again on a running broker silently replaces the
live client with a freshly constructed one (only `start()` and
`enable_rpc_client()` on its trace, no registered servers, regardless of what
the old client held) and resets the registry, so every topic's lookup is
`none` afterwards. -/
theorem c9_restart_resets_everything (s : BrokerState) (cfg : Config) (t : String)
    (_hs : s.started = true) :
    dictLookup (start s cfg).registry t = none
    ∧ (start s cfg).client.trace = [.start, .enableRpcClient]
    ∧ (start s cfg).client.rpcServers = [] :=
  ⟨rfl, rfl, rfl⟩

/-- Witness for C9: a running broker with a subscriber on `"t"` loses it on
re-`start`. -/
theorem c9_witness :
    ((subscribe_local (start initialState cfg0) "t" 3).2.started = true)
    ∧ (dictLookup (start (subscribe_local (start initialState cfg0) "t" 3).2 cfg0).registry "t"
          = none
      ∧ (start (subscribe_local (start initialState cfg0) "t" 3).2 cfg0).client.trace
          = [.start, .enableRpcClient]
      ∧ (start (subscribe_local (start initialState cfg0) "t" 3).2 cfg0).client.rpcServers
          = []) :=
  ⟨rfl, c9_restart_resets_everything (subscribe_local (start initialState cfg0) "t" 3).2
    cfg0 "t" rfl⟩

/-- Claim C10: on a running broker, when topic `t` is absent from the registry,
`publish_local` fails with the local-addressing exception and returns the state
exactly unchanged — in particular every topic still maps to the same value as
before the call. -/
theorem c10_publish_error_preserves_state (s : BrokerState) (t : String) (m : Msg)
    (hs : s.started = true) (habs : dictLookup s.registry t = none) :
    (publish_local s t m).1 = .error (.exception "That subscription does not exist")
    ∧ (publish_local s t m).2 = s := by
  have hget : dictGet s.registry t = none := by
    simp [dictGet, habs]
  constructor
  · simp [publish_local, hs, hget]
  · simp [publish_local, hs, hget]

/-- Witness for C10: a running broker with a subscriber on `"u"`; publishing to
the absent topic `"t"` raises and leaves the state as it was. -/
theorem c10_witness :
    ((subscribe_local (start initialState cfg0) "u" 4).2.started = true
      ∧ dictLookup (subscribe_local (start initialState cfg0) "u" 4).2.registry "t" = none)
    ∧ ((publish_local (subscribe_local (start initialState cfg0) "u" 4).2 "t" "m").1
          = .error (.exception "That subscription does not exist")
      ∧ (publish_local (subscribe_local (start initialState cfg0) "u" 4).2 "t" "m").2
          = (subscribe_local (start initialState cfg0) "u" 4).2) :=
  ⟨⟨rfl, rfl⟩,
    c10_publish_error_preserves_state (subscribe_local (start initialState cfg0) "u" 4).2
      "t" "m" rfl rfl⟩

end HumeBroker
